import Mathlib

/-!
Shallow embedding of the AI Code Reviewer frontend workflow controller
(frontend/src/App.jsx), its HTTP client adapter (frontend/src/api/client.js)
and the findings renderer (frontend/src/components/FindingsPanel.jsx).

The controller state mirrors the React hooks of `App`:
`code` (editor buffer), `findings`, `patchedCode` (pending fix, empty string
when absent, matching JS falsiness), `loading` (busy flag) and `message`
(status line).  Each event handler is embedded as a pure function from the
current state and the remote response to the next state, paired with the
list of remote calls the handler dispatches.
-/

/-- A lint finding, as produced by the analyze endpoint and consumed by
`App`: `{line, type, message, rule}`. -/
structure Finding where
  line : Nat
  type : String
  message : String
  rule : String
deriving Repr, DecidableEq

/-- One `{path, content}` entry of an analyze request body. -/
structure FileEntry where
  path : String
  content : String
deriving Repr, DecidableEq

/-- The `issue` object of a generate-fix request: `{rule, message, line}`. -/
structure IssuePayload where
  rule : String
  message : String
  line : Nat
deriving Repr, DecidableEq

/-- The remote calls the HTTP client adapter (api/client.js) can dispatch. -/
inductive RemoteCall where
  | analyze (files : List FileEntry)
  | generateFix (path : String) (code : String) (issue : IssuePayload)
  | applyPatch (files : List FileEntry) (patch : String)
  | healthCheck
deriving Repr, DecidableEq

/-- The controller state: the five `useState` hooks of `App`. -/
structure WorkflowState where
  code : String
  findings : List Finding
  patchedCode : String
  loading : Bool
  message : String
deriving Repr, DecidableEq

/-- `DEFAULT_CODE` from App.jsx. -/
def DEFAULT_CODE : String :=
  "# Paste your Python code here\nprint('Hello, AI Reviewer!')"

/-- The initial hook values of `App`. -/
def initState : WorkflowState :=
  { code := DEFAULT_CODE, findings := [], patchedCode := "", loading := false
    message := "" }

/-- `findings[0]?.type === 'info'` — JS optional chaining: `false` on the
empty list. -/
def headIsInfo : List Finding → Bool
  | [] => false
  | f :: _ => f.type == "info"

/-- The no-issue test `issues.length === 0 || issues[0]?.type === 'info'`
used by `handleAnalyze`, `handleAutoFix` and the Generate-Fix button. -/
def noIssues (findings : List Finding) : Bool :=
  findings.length == 0 || headIsInfo findings

/-- JS truthiness of an optional string field: `undefined` and `""` are
falsy. -/
def truthyStr : Option String → Bool
  | none => false
  | some s => !(s == "")

/-- Status string set while analyzing. -/
def analyzingMsg : String := "🔍 Analyzing your code..."

/-- Status string of the no-issue branch of `handleAnalyze`. -/
def noIssuesMsg : String := "✅ No issues found! Your code looks great."

/-- Status string of the issue-count branch of `handleAnalyze`. -/
def foundMsg (n : Nat) : String :=
  "Found " ++ toString n ++ " issue(s) that need attention."

/-- The catch-branch status: `❌ Error: ${detail}` where `detail` stands for
`error.response?.data?.detail || error.message`. -/
def errorMsg (detail : String) : String := "❌ Error: " ++ detail

/-- Status string of the early-return guard of `handleAutoFix`. -/
def nothingToFixMsg : String := "✅ Nothing to fix!"

/-- Status string set while generating a fix. -/
def generatingMsg : String := "🤖 AI is generating a fix..."

/-- Status string when the fix response carries no usable patch. -/
def noFixMsg : String := "❌ Could not generate fix. Try manual correction."

/-- Default explanation of a generated fix. -/
def defaultFixMsg : String := "Fix generated successfully!"

/-- Status string of the guard of `handleApplyPatch`. -/
def noFixAvailableMsg : String := "⚠️ No fix available to apply"

/-- Status string set while applying. -/
def applyingMsg : String := "✨ Applying fix..."

/-- Status string after a fix has been applied. -/
def appliedMsg : String := "✅ Fix applied! Run Analyze again to verify."

/-- Result of the analyze call: the `findings` of a 2xx response body, or
the error detail of a transport/non-2xx failure. -/
inductive AnalyzeResult where
  | ok (findings : List Finding)
  | err (detail : String)
deriving Repr, DecidableEq

/-- The 2xx response body of the generate-fix call:
`{success, patched_code?, explanation?}`. -/
structure FixResponse where
  success : Bool
  patched_code : Option String
  explanation : Option String
deriving Repr, DecidableEq

/-- Result of the generate-fix call. -/
inductive FixResult where
  | ok (resp : FixResponse)
  | err (detail : String)
deriving Repr, DecidableEq

/-- The analyze request `analyze([{path: "main.py", content: code}])`. -/
def analyzeCall (s : WorkflowState) : RemoteCall :=
  .analyze [{ path := "main.py", content := s.code }]

/-- The synchronous prefix of `handleAnalyze`: `setLoading(true)`,
`setMessage('🔍 ...')`, `setPatchedCode('')`. -/
def analyzeStart (s : WorkflowState) : WorkflowState :=
  { s with loading := true, message := analyzingMsg, patchedCode := "" }

/-- The continuation of `handleAnalyze` once the analyze call settles:
try-branch on `ok`, catch-branch on `err`, then `finally setLoading(false)`. -/
def analyzeFinish (s : WorkflowState) : AnalyzeResult → WorkflowState
  | .ok issues =>
      { s with findings := issues
               message := if noIssues issues then noIssuesMsg
                          else foundMsg issues.length
               loading := false }
  | .err detail =>
      { s with message := errorMsg detail, findings := [], loading := false }

/-- A full run of `handleAnalyze`: the next state and the remote calls it
dispatched. -/
def handleAnalyze (s : WorkflowState) (r : AnalyzeResult) :
    WorkflowState × List RemoteCall :=
  (analyzeFinish (analyzeStart s) r, [analyzeCall s])

/-- The issue payload built from `findings[0]` by `handleAutoFix`. -/
def fixIssue (f : Finding) : IssuePayload :=
  { rule := f.rule, message := f.message, line := f.line }

/-- The request `generateFix("main.py", code, {rule, message, line})`. -/
def fixCall (s : WorkflowState) (f : Finding) : RemoteCall :=
  .generateFix ("main.py") s.code (fixIssue f)

/-- `response.data.explanation || 'Fix generated successfully!'`. -/
def explOrDefault (o : Option String) : String :=
  if truthyStr o then o.getD "" else defaultFixMsg

/-- The continuation of `handleAutoFix` once the generate-fix call settles:
`if (response.data.success && response.data.patched_code)` stores the patch
and surfaces the explanation, else the no-fix message; catch-branch shows
the error; `finally setLoading(false)`. -/
def fixFinish (s : WorkflowState) : FixResult → WorkflowState
  | .ok resp =>
      if resp.success && truthyStr resp.patched_code then
        { s with patchedCode := resp.patched_code.getD ""
                 message := "💡 " ++ explOrDefault resp.explanation
                 loading := false }
      else { s with message := noFixMsg, loading := false }
  | .err detail => { s with message := errorMsg detail, loading := false }

/-- A full run of `handleAutoFix`: the early-return guard
`findings.length === 0 || findings[0]?.type === 'info'` sets only the
status; otherwise the handler sets `loading`, dispatches exactly one
generate-fix call built from `findings[0]`, and applies `fixFinish`. -/
def handleAutoFix (s : WorkflowState) (r : FixResult) :
    WorkflowState × List RemoteCall :=
  match s.findings with
  | [] => ({ s with message := nothingToFixMsg }, [])
  | f :: _ =>
      if f.type == "info" then ({ s with message := nothingToFixMsg }, [])
      else
        (fixFinish { s with loading := true, message := generatingMsg } r,
         [fixCall s f])

/-- A full run of `handleApplyPatch`: guard `if (!patchedCode)` sets only a
warning; otherwise the buffer is replaced wholesale by `patchedCode`,
`patchedCode` and `findings` are cleared, the re-analyze status is set and
`loading` ends `false` (`finally`).  No remote call in either branch. -/
def handleApplyPatch (s : WorkflowState) : WorkflowState × List RemoteCall :=
  if s.patchedCode == "" then
    ({ s with message := noFixAvailableMsg }, [])
  else
    ({ s with code := s.patchedCode, patchedCode := "", findings := []
              message := appliedMsg, loading := false }, [])

/-- `disabled={loading}` of the Analyze button. -/
def analyzeDisabled (s : WorkflowState) : Bool := s.loading

/-- `disabled={loading || findings.length === 0 || findings[0]?.type === 'info'}`
of the Generate Fix button. -/
def genFixDisabled (s : WorkflowState) : Bool :=
  s.loading || s.findings.length == 0 || headIsInfo s.findings

/-- `disabled={loading || !patchedCode}` of the Apply Fix button. -/
def applyDisabled (s : WorkflowState) : Bool :=
  s.loading || s.patchedCode == ""

/-- The row `Line {f.line}: {f.type.toUpperCase()} - {f.message} ({f.rule})`
rendered by `FindingsPanel` for one finding. -/
def renderFinding (f : Finding) : String :=
  "Line " ++ toString f.line ++ ": " ++ f.type.toUpper ++ " - " ++
    f.message ++ " (" ++ f.rule ++ ")"

/-- `FindingsPanel`: `if (!findings.length) return null;` else one row per
finding.  `none` models rendering nothing. -/
def FindingsPanel (findings : List Finding) : Option (List String) :=
  if findings.length == 0 then none
  else some (findings.map renderFinding)

/-- A browser session: the controller state plus the multiset (as a list)
of remote calls currently outstanding. -/
structure Session where
  ws : WorkflowState
  inflight : List RemoteCall
deriving Repr, DecidableEq

/-- The session as created at start: initial hook values, nothing in
flight. -/
def initSession : Session := { ws := initState, inflight := [] }

/-- One UI event of the session.  A remote call may start only through its
button, hence only when that button is not disabled; a response step
settles one outstanding call; Apply Fix is a synchronous local mutation;
the editor `onChange` may rewrite the buffer at any time. -/
inductive Step : Session → Session → Prop where
  | startAnalyze (s : Session) (h : analyzeDisabled s.ws = false) :
      Step s { ws := analyzeStart s.ws
               inflight := s.inflight ++ [analyzeCall s.ws] }
  | finishAnalyze (s : Session) (fs : List FileEntry) (r : AnalyzeResult)
      (h : RemoteCall.analyze fs ∈ s.inflight) :
      Step s { ws := analyzeFinish s.ws r
               inflight := s.inflight.erase (RemoteCall.analyze fs) }
  | startFix (s : Session) (f : Finding) (rest : List Finding)
      (h : genFixDisabled s.ws = false) (hf : s.ws.findings = f :: rest) :
      Step s { ws := { s.ws with loading := true, message := generatingMsg }
               inflight := s.inflight ++ [fixCall s.ws f] }
  | finishFix (s : Session) (p c : String) (i : IssuePayload) (r : FixResult)
      (h : RemoteCall.generateFix p c i ∈ s.inflight) :
      Step s { ws := fixFinish s.ws r
               inflight := s.inflight.erase (RemoteCall.generateFix p c i) }
  | applyFix (s : Session) (h : applyDisabled s.ws = false) :
      Step s { ws := (handleApplyPatch s.ws).1, inflight := s.inflight }
  | edit (s : Session) (newCode : String) :
      Step s { ws := { s.ws with code := newCode }, inflight := s.inflight }

/-- The sessions reachable from start by UI events. -/
inductive Reachable : Session → Prop where
  | init : Reachable initSession
  | step {s s' : Session} : Reachable s → Step s s' → Reachable s'

/-- The mutual-exclusion invariant: `loading` is up exactly while a call is
outstanding, and never more than one call is outstanding. -/
def SessionInv (s : Session) : Prop :=
  (s.ws.loading = true ↔ s.inflight ≠ []) ∧ s.inflight.length ≤ 1

/-- A list of length at most one containing `a` is `[a]`. -/
theorem eq_singleton_of_mem_of_length_le_one {α : Type} {a : α} {l : List α}
    (hm : a ∈ l) (hl : l.length ≤ 1) : l = [a] := by
  cases l with
  | nil => cases hm
  | cons b t =>
      cases t with
      | nil => cases hm with
          | head => rfl
          | tail _ h => cases h
      | cons c u => simp at hl

/-- `handleAnalyze` always lowers `loading` again (the `finally` clause). -/
theorem analyzeFinish_loading (s : WorkflowState) (r : AnalyzeResult) :
    (analyzeFinish s r).loading = false := by
  cases r <;> rfl

/-- `handleAutoFix`'s settling always lowers `loading` (the `finally`
clause). -/
theorem fixFinish_loading (s : WorkflowState) (r : FixResult) :
    (fixFinish s r).loading = false := by
  cases r with
  | ok resp =>
      simp only [fixFinish]
      split <;> rfl
  | err d => rfl

/-- `handleApplyPatch` never leaves `loading` up when it was down. -/
theorem handleApplyPatch_loading (s : WorkflowState) (h : s.loading = false) :
    (handleApplyPatch s).1.loading = false := by
  simp only [handleApplyPatch]
  split <;> simp [h]

/-- The mutual-exclusion invariant holds in every reachable session. -/
theorem reachable_sessionInv {s : Session} (h : Reachable s) : SessionInv s := by
  induction h with
  | init =>
      exact ⟨by simp [initSession, initState], by simp [initSession]⟩
  | @step t u hr hs ih =>
      obtain ⟨hiff, hlen⟩ := ih
      cases hs with
      | startAnalyze h =>
          have hl : t.ws.loading = false := h
          have he : t.inflight = [] := by
            by_contra hne
            rw [hiff.mpr hne] at hl
            exact Bool.noConfusion hl
          exact ⟨by simp [analyzeStart, he], by simp [he]⟩
      | finishAnalyze fs r hmem =>
          have ht : t.inflight = [RemoteCall.analyze fs] :=
            eq_singleton_of_mem_of_length_le_one hmem hlen
          refine ⟨?_, ?_⟩ <;> simp [ht, analyzeFinish_loading]
      | startFix f rest h hf =>
          have hl : t.ws.loading = false := by
            simp only [genFixDisabled, Bool.or_eq_false_iff] at h
            exact h.1.1
          have he : t.inflight = [] := by
            by_contra hne
            rw [hiff.mpr hne] at hl
            exact Bool.noConfusion hl
          exact ⟨by simp [he], by simp [he]⟩
      | finishFix p c i r hmem =>
          have ht : t.inflight = [RemoteCall.generateFix p c i] :=
            eq_singleton_of_mem_of_length_le_one hmem hlen
          refine ⟨?_, ?_⟩ <;> simp [ht, fixFinish_loading]
      | applyFix h =>
          have hl : t.ws.loading = false := by
            simp only [applyDisabled, Bool.or_eq_false_iff] at h
            exact h.1
          have he : t.inflight = [] := by
            by_contra hne
            rw [hiff.mpr hne] at hl
            exact Bool.noConfusion hl
          exact ⟨by simp [handleApplyPatch_loading t.ws hl, he], by simp [he]⟩
      | edit newCode =>
          exact ⟨hiff, hlen⟩

/-- The warning finding of Scenario B of the specification. -/
def sampleWarning : Finding :=
  { line := 1, type := "warning", message := "Unused variable", rule := "W0612" }

/-- The "info" sentinel finding meaning no real issues. -/
def infoFinding : Finding :=
  { line := 1, type := "info", message := "No issues found", rule := "ok" }

/-- A quiescent state holding one warning finding and no pending fix. -/
def sampleReadyState : WorkflowState :=
  { code := "print('x')", findings := [sampleWarning], patchedCode := ""
    loading := false, message := "" }

/-- A quiescent state holding one warning finding and a pending fix. -/
def samplePendingState : WorkflowState :=
  { code := "print('x')", findings := [sampleWarning], patchedCode := "print('y')"
    loading := false, message := "" }

/-- A quiescent state whose findings list is the "info" sentinel. -/
def infoState : WorkflowState :=
  { code := "print('x')", findings := [infoFinding], patchedCode := ""
    loading := false, message := "" }

/-- A generate-fix response body with `success:false`. -/
def failResponse : FixResponse :=
  { success := false, patched_code := none, explanation := none }

/-- Claim C1: with a pending fix present, Apply Fix replaces the editor
buffer wholesale with the pending text, clears the pending fix, clears the
findings list, sets the re-analyze status message, and dispatches no remote
call. -/
theorem applyFix_applies_pending (s : WorkflowState) (h : s.patchedCode ≠ "") :
    (handleApplyPatch s).1.code = s.patchedCode ∧
    (handleApplyPatch s).1.patchedCode = "" ∧
    (handleApplyPatch s).1.findings = [] ∧
    (handleApplyPatch s).1.message = appliedMsg ∧
    (handleApplyPatch s).2 = [] := by
  have hb : (s.patchedCode == "") = false := by simp [h]
  simp [handleApplyPatch, hb]

/-- Witness for C1 at Scenario C's pending fix. -/
theorem applyFix_applies_pending_witness :
    (handleApplyPatch samplePendingState).1.code = samplePendingState.patchedCode ∧
    (handleApplyPatch samplePendingState).1.patchedCode = "" ∧
    (handleApplyPatch samplePendingState).1.findings = [] ∧
    (handleApplyPatch samplePendingState).1.message = appliedMsg ∧
    (handleApplyPatch samplePendingState).2 = [] :=
  applyFix_applies_pending samplePendingState (by decide)

/-- Claim C2: a successful analyze response with an empty findings list or
a leading "info" finding yields exactly the fixed no-issues status (which
carries no count and does not depend on the list), while any other response
yields the status `Found n issue(s) that need attention.`, which contains
the exact count as a substring. -/
theorem analyze_status_message (s : WorkflowState) (issues : List Finding) :
    (issues.length = 0 ∨ headIsInfo issues = true →
      (handleAnalyze s (AnalyzeResult.ok issues)).1.message = noIssuesMsg) ∧
    (issues.length ≠ 0 → headIsInfo issues = false →
      (handleAnalyze s (AnalyzeResult.ok issues)).1.message =
        foundMsg issues.length ∧
      ∃ a b, (handleAnalyze s (AnalyzeResult.ok issues)).1.message =
        a ++ toString issues.length ++ b) := by
  constructor
  · intro h
    have hn : noIssues issues = true := by
      cases h with
      | inl h => simp [noIssues, h]
      | inr h => simp [noIssues, h]
    simp [handleAnalyze, analyzeFinish, hn]
  · intro h1 h2
    have hn : noIssues issues = false := by
      simp [noIssues, h1, h2]
    refine ⟨by simp [handleAnalyze, analyzeFinish, hn],
      "Found ", " issue(s) that need attention.", ?_⟩
    simp [handleAnalyze, analyzeFinish, hn, foundMsg]

/-- Witness for C2: the empty response and the one-warning response. -/
theorem analyze_status_message_witness :
    (handleAnalyze initState (AnalyzeResult.ok [])).1.message = noIssuesMsg ∧
    (handleAnalyze initState (AnalyzeResult.ok [sampleWarning])).1.message =
      foundMsg 1 := by
  constructor
  · exact (analyze_status_message initState []).1 (Or.inl rfl)
  · exact ((analyze_status_message initState [sampleWarning]).2
      (by decide) (by decide)).1

/-- Claim C3: with a non-empty findings list whose first element is not the
"info" sentinel, Generate Fix dispatches exactly one request, carrying the
fixed path, the current buffer, and exactly the first finding's rule,
message and line; no other finding appears in any dispatched request. -/
theorem genFix_request_first_finding (s : WorkflowState) (f : Finding)
    (rest : List Finding) (r : FixResult) (hf : s.findings = f :: rest)
    (hi : f.type ≠ "info") :
    (handleAutoFix s r).2 =
      [RemoteCall.generateFix ("main.py") s.code
        { rule := f.rule, message := f.message, line := f.line }] := by
  have hb : (f.type == "info") = false := by simp [hi]
  simp [handleAutoFix, hf, hb, fixCall, fixIssue]

/-- Witness for C3 at Scenario B's findings list. -/
theorem genFix_request_first_finding_witness :
    (handleAutoFix sampleReadyState (FixResult.err ("net"))).2 =
      [RemoteCall.generateFix ("main.py") sampleReadyState.code
        { rule := sampleWarning.rule, message := sampleWarning.message
          line := sampleWarning.line }] :=
  genFix_request_first_finding sampleReadyState sampleWarning []
    (FixResult.err ("net")) rfl (by decide)

/-- Counterexample to C4 as stated: a `success:false` response leaves an
already-present pending fix in place, so the pending fix is not absent
afterwards (though the no-fix status is shown). -/
theorem genFix_failure_keeps_pending_cex :
    (handleAutoFix samplePendingState (FixResult.ok failResponse)).1.patchedCode
      = "print('y')" ∧
    ("print('y')" : String) ≠ "" ∧
    (handleAutoFix samplePendingState (FixResult.ok failResponse)).1.message
      = noFixMsg := by
  refine ⟨rfl, by decide, rfl⟩

/-- Claim C4 (amended): on `success=true` with a truthy (present, non-empty)
patched text the text is stored as the pending fix and the status surfaces
the explanation or the default success message; otherwise the status is the
no-fix message and the pending fix is left unchanged (hence still absent
whenever it was absent before). -/
theorem genFix_response_handling (s : WorkflowState) (f : Finding)
    (rest : List Finding) (resp : FixResponse) (hf : s.findings = f :: rest)
    (hi : f.type ≠ "info") :
    ((resp.success && truthyStr resp.patched_code) = true →
      (handleAutoFix s (FixResult.ok resp)).1.patchedCode =
        resp.patched_code.getD "" ∧
      (handleAutoFix s (FixResult.ok resp)).1.message =
        "💡 " ++ explOrDefault resp.explanation) ∧
    ((resp.success && truthyStr resp.patched_code) = false →
      (handleAutoFix s (FixResult.ok resp)).1.message = noFixMsg ∧
      (handleAutoFix s (FixResult.ok resp)).1.patchedCode = s.patchedCode) := by
  have hb : (f.type == "info") = false := by simp [hi]
  constructor
  · intro hc
    simp [handleAutoFix, hf, hb, fixFinish, hc]
  · intro hc
    simp [handleAutoFix, hf, hb, fixFinish, hc]

/-- Witness for C4 at the `success:false` response. -/
theorem genFix_response_handling_witness :
    (handleAutoFix samplePendingState (FixResult.ok failResponse)).1.message
      = noFixMsg ∧
    (handleAutoFix samplePendingState (FixResult.ok failResponse)).1.patchedCode
      = samplePendingState.patchedCode :=
  (genFix_response_handling samplePendingState sampleWarning [] failResponse
    rfl (by decide)).2 rfl

/-- Counterexample to C5 as stated: on the empty findings list the panel
renders nothing (no prompt), and a single "info"-tagged finding is rendered
as an ordinary row, not as a distinct success message. -/
theorem findingsPanel_cex :
    FindingsPanel [] = none ∧
    FindingsPanel [infoFinding] = some [renderFinding infoFinding] :=
  ⟨rfl, rfl⟩

/-- Claim C5 (amended): the findings renderer renders nothing on the empty
list, and otherwise (an "info"-tagged finding included) renders one row per
finding carrying its line number, upper-cased category label and message. -/
theorem findingsPanel_renders (findings : List Finding) :
    (findings = [] → FindingsPanel findings = none) ∧
    (findings ≠ [] → FindingsPanel findings =
      some (findings.map renderFinding)) := by
  constructor
  · intro h
    simp [FindingsPanel, h]
  · intro h
    have hl : (findings.length == 0) = false := by
      simp [List.length_eq_zero, h]
    simp [FindingsPanel, hl]

/-- Witness for C5 at the one-warning list. -/
theorem findingsPanel_renders_witness :
    FindingsPanel [sampleWarning] = some ([sampleWarning].map renderFinding) :=
  (findingsPanel_renders [sampleWarning]).2 (by decide)

/-- Claim C6: every Analyze invocation clears the pending fix in its
synchronous prefix (and it stays cleared however the call settles), and on
a failed call the findings list becomes empty, the status message contains
the error detail text, and `loading` returns to `false`. -/
theorem analyze_clears_pending_and_error_path (s : WorkflowState)
    (detail : String) :
    (analyzeStart s).patchedCode = "" ∧
    (∀ r, (handleAnalyze s r).1.patchedCode = "") ∧
    (handleAnalyze s (AnalyzeResult.err detail)).1.findings = [] ∧
    (∃ a b, (handleAnalyze s (AnalyzeResult.err detail)).1.message =
      a ++ detail ++ b) ∧
    (handleAnalyze s (AnalyzeResult.err detail)).1.loading = false := by
  refine ⟨rfl, ?_, rfl, ⟨"❌ Error: ", "", ?_⟩, rfl⟩
  · intro r
    cases r <;> rfl
  · simp [handleAnalyze, analyzeFinish, errorMsg]

/-- Claim C7: the Generate Fix button is disabled in every state whose
findings list is empty or starts with the "info" sentinel, and the Apply
Fix button is disabled in every state whose pending fix is absent. -/
theorem triggers_disabled (s : WorkflowState) :
    (s.findings = [] ∨ headIsInfo s.findings = true →
      genFixDisabled s = true) ∧
    (s.patchedCode = "" → applyDisabled s = true) := by
  constructor
  · intro h
    cases h with
    | inl h => simp [genFixDisabled, h]
    | inr h => simp [genFixDisabled, h]
  · intro h
    simp [applyDisabled, h]

/-- Witness for C7 at the initial state. -/
theorem triggers_disabled_witness :
    genFixDisabled initState = true ∧ applyDisabled initState = true :=
  ⟨(triggers_disabled initState).1 (Or.inl rfl),
   (triggers_disabled initState).2 rfl⟩

/-- Claim C8: in every reachable session at most one remote call is
outstanding, and `loading` (which disables all three triggers) is up
exactly while one is — so the Analyzing, Fixing and Applying phases never
overlap. -/
theorem single_outstanding_call {s : Session} (h : Reachable s) :
    s.inflight.length ≤ 1 ∧
    (s.ws.loading = true ↔ s.inflight ≠ []) := by
  have hi := reachable_sessionInv h
  exact ⟨hi.2, hi.1⟩

/-- The session right after pressing Analyze in the initial state. -/
def sessionAfterStart : Session :=
  { ws := analyzeStart initState, inflight := [analyzeCall initState] }

/-- Witness for C8 at the session reached by one Analyze press. -/
theorem single_outstanding_call_witness :
    sessionAfterStart.inflight.length ≤ 1 ∧
    (sessionAfterStart.ws.loading = true ↔ sessionAfterStart.inflight ≠ []) :=
  single_outstanding_call
    (Reachable.step Reachable.init (Step.startAnalyze initSession rfl))

/-- Claim C9: invoking Apply Fix with no pending fix leaves the buffer, the
findings, the pending fix and the busy flag unchanged, dispatches no remote
call, and only sets the no-fix-available warning status. -/
theorem applyFix_guard_noop (s : WorkflowState) (h : s.patchedCode = "") :
    (handleApplyPatch s).1.code = s.code ∧
    (handleApplyPatch s).1.findings = s.findings ∧
    (handleApplyPatch s).1.patchedCode = s.patchedCode ∧
    (handleApplyPatch s).1.loading = s.loading ∧
    (handleApplyPatch s).1.message = noFixAvailableMsg ∧
    (handleApplyPatch s).2 = [] := by
  simp [handleApplyPatch, h]

/-- Witness for C9 at a state with findings but no pending fix. -/
theorem applyFix_guard_noop_witness :
    (handleApplyPatch sampleReadyState).1.code = sampleReadyState.code ∧
    (handleApplyPatch sampleReadyState).1.findings = sampleReadyState.findings ∧
    (handleApplyPatch sampleReadyState).1.patchedCode =
      sampleReadyState.patchedCode ∧
    (handleApplyPatch sampleReadyState).1.loading = sampleReadyState.loading ∧
    (handleApplyPatch sampleReadyState).1.message = noFixAvailableMsg ∧
    (handleApplyPatch sampleReadyState).2 = [] :=
  applyFix_guard_noop sampleReadyState rfl

/-- Claim C10: invoking Generate Fix with an empty findings list or a
leading "info" finding dispatches no remote call, never raises `loading`,
leaves findings, pending fix and buffer unchanged, and sets only the
informational status — so the request path reads `findings[0]` only on a
non-empty, non-sentinel list. -/
theorem genFix_guard_noop (s : WorkflowState) (r : FixResult)
    (h : s.findings = [] ∨ headIsInfo s.findings = true) :
    (handleAutoFix s r).2 = [] ∧
    (handleAutoFix s r).1.loading = s.loading ∧
    (handleAutoFix s r).1.findings = s.findings ∧
    (handleAutoFix s r).1.patchedCode = s.patchedCode ∧
    (handleAutoFix s r).1.code = s.code ∧
    (handleAutoFix s r).1.message = nothingToFixMsg := by
  cases hf : s.findings with
  | nil => simp [handleAutoFix, hf]
  | cons f rest =>
      have hi : (f.type == "info") = true := by
        cases h with
        | inl h => rw [h] at hf; cases hf
        | inr h => rw [hf] at h; simpa [headIsInfo] using h
      simp [handleAutoFix, hf, hi]

/-- Witness for C10 at the "info" sentinel state. -/
theorem genFix_guard_noop_witness :
    (handleAutoFix infoState (FixResult.err ("net"))).2 = [] ∧
    (handleAutoFix infoState (FixResult.err ("net"))).1.loading =
      infoState.loading ∧
    (handleAutoFix infoState (FixResult.err ("net"))).1.findings =
      infoState.findings ∧
    (handleAutoFix infoState (FixResult.err ("net"))).1.patchedCode =
      infoState.patchedCode ∧
    (handleAutoFix infoState (FixResult.err ("net"))).1.code =
      infoState.code ∧
    (handleAutoFix infoState (FixResult.err ("net"))).1.message =
      nothingToFixMsg :=
  genFix_guard_noop infoState (FixResult.err ("net")) (Or.inr rfl)
